import Mathlib

/-! Verification of the drogulus node facade and peer-contact model.

Shallow embedding of `drogulus/node.py` together with the parts of the
drogulus DHT package it depends on (`drogulus.dht.contact`,
`drogulus.dht.crypto`, `drogulus.dht.constants`, `drogulus.version` and
`drogulus.dht.node.Node`).  Only `drogulus/node.py` and the contact test
suite are present in the repository snapshot; the missing modules are
modelled from the specification, each such definition carrying a doc
comment that starts with `Modelled from the spec:`.

Machine integers are `Nat` with explicit reduction `% 2 ^ 64` where the
SHA-512 compression function overflows; fallible code returns `Except`.
-/

namespace Drogulus

/-- Error kinds of the drogulus error taxonomy that the embedded code can
produce (the spec lists the full taxonomy; only `InvalidKey` is reachable
from the embedded operations). -/
inductive DrogulusError where
  | InvalidKey : DrogulusError
deriving DecidableEq, Repr

/-! SHA-512 (FIPS 180-4).

The spec consumes hashing as an opaque primitive but pins the algorithm:
network ids and compound keys are SHA-512 hex digests.  We embed SHA-512
executably over `Nat`, reducing modulo `2 ^ 64` wherever the source
algorithm works in 64-bit words. -/

/-- The 64-bit mask `2 ^ 64 - 1`. -/
def w64mask : Nat := 2 ^ 64 - 1

/-- Truncate a natural number to 64 bits. -/
def trunc64 (n : Nat) : Nat := n % 2 ^ 64

/-- Addition of 64-bit words. -/
def add64 (a b : Nat) : Nat := (a + b) % 2 ^ 64

/-- Bitwise complement of a 64-bit word (a value already below `2 ^ 64`). -/
def not64 (a : Nat) : Nat := Nat.xor a w64mask

/-- Right rotation of a 64-bit word by `k` bits. -/
def rotr64 (a k : Nat) : Nat :=
  Nat.lor (a >>> k) ((a <<< (64 - k)) % 2 ^ 64)

/-- The SHA-512 `Ch` function. -/
def sha512Ch (x y z : Nat) : Nat :=
  Nat.xor (Nat.land x y) (Nat.land (not64 x) z)

/-- The SHA-512 `Maj` function. -/
def sha512Maj (x y z : Nat) : Nat :=
  Nat.xor (Nat.xor (Nat.land x y) (Nat.land x z)) (Nat.land y z)

/-- The SHA-512 big sigma 0 function. -/
def bigSigma0 (x : Nat) : Nat :=
  Nat.xor (Nat.xor (rotr64 x 28) (rotr64 x 34)) (rotr64 x 39)

/-- The SHA-512 big sigma 1 function. -/
def bigSigma1 (x : Nat) : Nat :=
  Nat.xor (Nat.xor (rotr64 x 14) (rotr64 x 18)) (rotr64 x 41)

/-- The SHA-512 small sigma 0 function. -/
def smallSigma0 (x : Nat) : Nat :=
  Nat.xor (Nat.xor (rotr64 x 1) (rotr64 x 8)) (x >>> 7)

/-- The SHA-512 small sigma 1 function. -/
def smallSigma1 (x : Nat) : Nat :=
  Nat.xor (Nat.xor (rotr64 x 19) (rotr64 x 61)) (x >>> 6)

/-- The 80 SHA-512 round constants of FIPS 180-4, written in decimal. -/
def sha512K : List Nat :=
  [4794697086780616226, 8158064640168781261, 13096744586834688815,
   16840607885511220156, 4131703408338449720, 6480981068601479193,
   10538285296894168987, 12329834152419229976, 15566598209576043074,
   1334009975649890238, 2608012711638119052, 6128411473006802146,
   8268148722764581231, 9286055187155687089, 11230858885718282805,
   13951009754708518548, 16472876342353939154, 17275323862435702243,
   1135362057144423861, 2597628984639134821, 3308224258029322869,
   5365058923640841347, 6679025012923562964, 8573033837759648693,
   10970295158949994411, 12119686244451234320, 12683024718118986047,
   13788192230050041572, 14330467153632333762, 15395433587784984357,
   489312712824947311, 1452737877330783856, 2861767655752347644,
   3322285676063803686, 5560940570517711597, 5996557281743188959,
   7280758554555802590, 8532644243296465576, 9350256976987008742,
   10552545826968843579, 11727347734174303076, 12113106623233404929,
   14000437183269869457, 14369950271660146224, 15101387698204529176,
   15463397548674623760, 17586052441742319658, 1182934255886127544,
   1847814050463011016, 2177327727835720531, 2830643537854262169,
   3796741975233480872, 4115178125766777443, 5681478168544905931,
   6601373596472566643, 7507060721942968483, 8399075790359081724,
   8693463985226723168, 9568029438360202098, 10144078919501101548,
   10430055236837252648, 11840083180663258601, 13761210420658862357,
   14299343276471374635, 14566680578165727644, 15097957966210449927,
   16922976911328602910, 17689382322260857208, 500013540394364858,
   748580250866718886, 1242879168328830382, 1977374033974150939,
   2944078676154940804, 3659926193048069267, 4368137639120453308,
   4836135668995329356, 5532061633213252278, 6448918945643986474,
   6902733635092675308, 7801388544844847127]

/-- The eight 64-bit working registers of the SHA-512 compression
function. -/
structure Sha512State where
  a : Nat
  b : Nat
  c : Nat
  d : Nat
  e : Nat
  f : Nat
  g : Nat
  h : Nat
deriving DecidableEq, Repr

/-- The initial SHA-512 hash value of FIPS 180-4, written in decimal. -/
def sha512H0 : Sha512State :=
  { a := 7640891576956012808,
    b := 13503953896175478587,
    c := 4354685564936845355,
    d := 11912009170470909681,
    e := 5840696475078001361,
    f := 11170449401992604703,
    g := 2270897969802886507,
    h := 6620516959819538809 }

/-- The SHA-512 padding: append the byte 128, zero bytes until the length is
congruent to 112 modulo 128, then the bit length as a 16-byte big-endian
integer. -/
def sha512Pad (msg : List Nat) : List Nat :=
  let len := msg.length
  let padLen := (128 + 112 - (len + 1) % 128) % 128
  let bitLen := len * 8
  msg ++ [128] ++ List.replicate padLen 0 ++
    (List.range 16).map (fun i => bitLen >>> ((15 - i) * 8) % 256)

/-- Split a byte list into chunks of `n` bytes (for positive `n`; on a
non-empty list, `(b :: bs).drop n = bs.drop (n - 1)`). -/
def chunks (n : Nat) : List Nat → List (List Nat)
  | [] => []
  | b :: bs => (b :: bs).take n :: chunks n (bs.drop (n - 1))
termination_by l => l.length
decreasing_by
  simp [List.length_drop]
  omega

/-- Read a big-endian 64-bit word from eight bytes. -/
def wordOfBytes (bytes : List Nat) : Nat :=
  bytes.foldl (fun acc b => acc * 256 + b) 0

/-- Extend the sixteen block words into the eighty-entry message
schedule. -/
def sha512Schedule (ws : List Nat) : List Nat :=
  (List.range 64).foldl
    (fun acc t =>
      acc ++ [trunc64 (smallSigma1 (acc.getD (t + 14) 0) +
        acc.getD (t + 9) 0 + smallSigma0 (acc.getD (t + 1) 0) +
        acc.getD t 0)])
    ws

/-- One round of the SHA-512 compression function. -/
def sha512Round (st : Sha512State) (kt wt : Nat) : Sha512State :=
  let t1 := trunc64 (st.h + bigSigma1 st.e + sha512Ch st.e st.f st.g +
    kt + wt)
  let t2 := trunc64 (bigSigma0 st.a + sha512Maj st.a st.b st.c)
  { a := add64 t1 t2, b := st.a, c := st.b, d := st.c,
    e := add64 st.d t1, f := st.e, g := st.f, h := st.g }

/-- Process one 128-byte block. -/
def sha512Block (h : Sha512State) (block : List Nat) : Sha512State :=
  let ws := sha512Schedule ((chunks 8 block).map wordOfBytes)
  let st := (sha512K.zip ws).foldl
    (fun st kw => sha512Round st kw.1 kw.2) h
  { a := add64 h.a st.a, b := add64 h.b st.b, c := add64 h.c st.c,
    d := add64 h.d st.d, e := add64 h.e st.e, f := add64 h.f st.f,
    g := add64 h.g st.g, h := add64 h.h st.h }

/-- The SHA-512 digest state of a byte message. -/
def sha512Digest (msg : List Nat) : Sha512State :=
  (chunks 128 (sha512Pad msg)).foldl sha512Block sha512H0

/-- The lower-case hex character of a value below 16. -/
def hexChar (n : Nat) : Char :=
  if n < 10 then Char.ofNat (48 + n) else Char.ofNat (87 + n)

/-- The 16 lower-case hex characters of a 64-bit word, most significant
first. -/
def wordToHex (w : Nat) : List Char :=
  (List.range 16).map (fun i => hexChar (w >>> ((15 - i) * 4) % 16))

/-- The 128-character lower-case hex digest of a byte message, as
`hashlib.sha512(...).hexdigest()` yields it. -/
def sha512Hexdigest (msg : List Nat) : String :=
  let d := sha512Digest msg
  String.mk (wordToHex d.a ++ wordToHex d.b ++ wordToHex d.c ++
    wordToHex d.d ++ wordToHex d.e ++ wordToHex d.f ++ wordToHex d.g ++
    wordToHex d.h)

/-- Python's `str.encode('ascii')`: the code points of the characters,
one byte each (defined on ASCII-only strings, where each code point is
below 128). -/
def asciiEncode (s : String) : List Nat :=
  s.data.map Char.toNat

/-- A string is ASCII-encodable when every character is below 128. -/
def isAscii (s : String) : Prop :=
  ∀ c ∈ s.data, c.toNat < 128

instance (s : String) : Decidable (isAscii s) := by
  unfold isAscii
  infer_instance

/-! Identity: `drogulus.dht.contact`. -/

/-- Modelled from the spec: `drogulus.dht.contact.make_network_id` is not
under `src/` (only its tests are).  Per the spec, a network id is derived
from a non-empty public-key string by hashing its ASCII encoding with
SHA-512 and taking the hex digest; an empty key fails with `InvalidKey`
(the tests observe a `ValueError`). -/
def make_network_id (public_key : String) : Except DrogulusError String :=
  if public_key = "" then
    Except.error DrogulusError.InvalidKey
  else
    Except.ok (sha512Hexdigest (asciiEncode public_key))

/-- Modelled from the spec: the `PeerNode` attribute record of
`drogulus.dht.contact`, which is not under `src/` (only its tests are). -/
structure PeerNode where
  network_id : String
  public_key : String
  version : String
  uri : String
  last_seen : Nat
  failed_RPCs : Nat
deriving DecidableEq, Repr

/-- Modelled from the spec: the `PeerNode` constructor of
`drogulus.dht.contact` is not under `src/`.  It derives `network_id` from
the public key via `make_network_id` (propagating its failure) and starts
the `failed_RPCs` counter at 0. -/
def PeerNode.init (public_key version uri : String) (last_seen : Nat) :
    Except DrogulusError PeerNode :=
  match make_network_id public_key with
  | Except.error e => Except.error e
  | Except.ok nid =>
      Except.ok { network_id := nid, public_key := public_key,
                  version := version, uri := uri, last_seen := last_seen,
                  failed_RPCs := 0 }

/-- Modelled from the spec: `PeerNode.__eq__` against another peer is not
under `src/`.  Two peers are equal iff their `network_id`s match. -/
def PeerNode.eqPeer (p q : PeerNode) : Bool :=
  p.network_id == q.network_id

/-- Modelled from the spec: `PeerNode.__eq__` against a bare string is
not under `src/`.  A peer equals a bare `network_id` string with the same
value. -/
def PeerNode.eqStr (p : PeerNode) (s : String) : Bool :=
  p.network_id == s

/-- Modelled from the spec: `PeerNode.dump` is not under `src/`.  It
returns exactly the `public_key`, `version` and `uri` entries, for
routing-table backup. -/
def PeerNode.dump (p : PeerNode) : List (String × String) :=
  [("public_key", p.public_key), ("version", p.version), ("uri", p.uri)]

/-- A deterministic executable stand-in for Python's opaque builtin
string hash (the spec consumes hashing of strings as an opaque
operation). -/
def pyStringHash (s : String) : Nat :=
  s.data.foldl (fun h c => (h * 31 + c.toNat) % 2 ^ 64) 5381

/-- Modelled from the spec: `PeerNode.__hash__` is not under `src/`.  The
hash of a peer is the hash of its `network_id`. -/
def PeerNode.pyHash (p : PeerNode) : Nat :=
  pyStringHash p.network_id

/-! Python values and dictionaries.

`Drogulus.whoami` is "a dictionary of arbitrary data"; its values and the
`value` payload of `set` are dynamically typed in Python.  `PyVal` is the
universal value type of the embedding, with `other` standing for any
non-string, non-dict datum. -/

/-- A dynamically typed Python value. -/
inductive PyVal where
  | str : String → PyVal
  | dict : List (String × PyVal) → PyVal
  | other : Nat → PyVal
deriving Repr

/-- Python dictionary lookup `d[k]` as an `Option` (dictionaries are
modelled as association lists where the first binding of a key wins). -/
def dictLookup (d : List (String × PyVal)) (k : String) : Option PyVal :=
  match d with
  | [] => none
  | (k', v) :: rest => if k' = k then some v else dictLookup rest k

/-- Python dictionary assignment `d[k] = v`: replace every binding of `k`
or append a new one. -/
def dictSet (d : List (String × PyVal)) (k : String) (v : PyVal) :
    List (String × PyVal) :=
  match d with
  | [] => [(k, v)]
  | (k', v') :: rest =>
      if k' = k then (k, v) :: dictSet rest k v
      else (k', v') :: dictSet rest k v

/-! Constants and version.

`drogulus.dht.constants` and `drogulus.version` are not under `src/`. -/

/-- Modelled from the spec: `DUPLICATION_COUNT` from
`drogulus.dht.constants` (not under `src/`), the default number of peers
a `set` replicates to.  The spec pins it to 6. -/
def DUPLICATION_COUNT : Nat := 6

/-- Modelled from the spec: `EXPIRY_DURATION` from
`drogulus.dht.constants` (not under `src/`), the default time-to-live in
seconds for a `set`.  The spec does not pin its numeric value; the claims
only relate defaults to this constant, so any fixed value is faithful. -/
def EXPIRY_DURATION : Nat := 788400000

/-- Modelled from the spec: `drogulus.version.get_version` (not under
`src/`), the local software version string.  The claims only relate
attributes to this constant, so any fixed value is faithful. -/
def get_version : String := "0.0.1"

/-! Crypto envelope: `drogulus.dht.crypto`. -/

/-- Modelled from the spec: `drogulus.dht.crypto.construct_key` is not
under `src/`.  The compound key is `hash(public_key ‖ key_name)` as hex,
with SHA-512 as the hash. -/
def construct_key (public_key key_name : String) : String :=
  sha512Hexdigest (asciiEncode (public_key ++ key_name))

/-- A signature produced by the opaque signing primitive: the spec
consumes `sign(private_key, bytes)` as a black box covering the canonical
encoding of `(value, timestamp, expires, name, created_with)`, so the
embedding records the signer and exactly those covered fields. -/
structure Signature where
  signer : String
  value : PyVal
  timestamp : Nat
  expires : Nat
  name : String
  created_with : String
deriving Repr

/-- Modelled from the spec: the opaque `sign` primitive consumed by
`drogulus.dht.crypto` (not under `src/`). -/
def sign (private_key : String) (value : PyVal) (timestamp expires : Nat)
    (name created_with : String) : Signature :=
  { signer := private_key, value := value, timestamp := timestamp,
    expires := expires, name := name, created_with := created_with }

/-- The signed-item record of the spec's data model. -/
structure SignedItem where
  key : String
  value : PyVal
  timestamp : Nat
  expires : Nat
  created_with : String
  public_key : String
  name : String
  signature : Signature
deriving Repr

/-- Modelled from the spec: `drogulus.dht.crypto.get_signed_item` is not
under `src/`.  It builds a `SignedItem` with `timestamp = now()`,
`expires = now() + ttl` (0 if `ttl == 0`), the author's identity and
software version, and a signature over the canonical encoding.  The
wall clock is passed explicitly as `now`. -/
def get_signed_item (key_name : String) (value : PyVal)
    (public_key private_key : String) (ttl now : Nat) : SignedItem :=
  let expires := if ttl = 0 then 0 else now + ttl
  { key := construct_key public_key key_name
    value := value
    timestamp := now
    expires := expires
    created_with := get_version
    public_key := public_key
    name := key_name
    signature := sign private_key value now expires key_name get_version }

/-! The node facade: `drogulus/node.py` (under `src/`, authoritative).

`Drogulus` delegates the heavy lifting to its `_node`
(`drogulus.dht.node.Node`, not under `src/`).  Calls into the node are
embedded as effect descriptions recording exactly the arguments the
facade passes: `RetrieveCall` for `_node.retrieve`, `ReplicateCall` for
`_node.replicate`, `SetCall` for the facade's own `set`. -/

/-- The argument of a `_node.retrieve(target)` call. -/
structure RetrieveCall where
  target : String
deriving DecidableEq, Repr

/-- The arguments of a `_node.replicate(duplicate, key, value, timestamp,
expires, created_with, public_key, name, signature)` call. -/
structure ReplicateCall where
  duplicate : Nat
  key : String
  value : PyVal
  timestamp : Nat
  expires : Nat
  created_with : String
  public_key : String
  name : String
  signature : Signature
deriving Repr

/-- The arguments of a `Drogulus.set(key_name, value)` call as issued by
the join callback: `key_name` is whatever `whoami['public_key']` looks up
to. -/
structure SetCall where
  key_name : Option PyVal
  value : PyVal
deriving Repr

/-- The state a `Drogulus.__init__` establishes (the event loop,
connector, port and `_node` are opaque external collaborators; the
embedding keeps the fields the claims observe). -/
structure DrogulusState where
  private_key : String
  public_key : String
  network_id : String
  whoami : List (String × PyVal)
deriving Repr

/-- `Drogulus.__init__` from `drogulus/node.py`: stores the key pair,
derives `network_id` (via the `Node`, which applies `make_network_id` to
the public key — modelled from the spec, since `Node` is not under
`src/`), takes the caller's `whoami` dictionary when it is truthy (a
fresh empty one otherwise), then overwrites its `public_key` and
`version` entries. -/
def drogulusInit (private_key public_key : String)
    (whoami : Option (List (String × PyVal))) :
    Except DrogulusError DrogulusState :=
  match make_network_id public_key with
  | Except.error e => Except.error e
  | Except.ok nid =>
      let w0 := match whoami with
        | some w => if w.isEmpty then [] else w
        | none => []
      let w1 := dictSet w0 "public_key" (PyVal.str public_key)
      let w2 := dictSet w1 "version" (PyVal.str get_version)
      Except.ok { private_key := private_key, public_key := public_key,
                  network_id := nid, whoami := w2 }

/-- `Drogulus.get` from `drogulus/node.py`: a retrieve at the compound
key `construct_key(public_key, key_name)`. -/
def DrogulusState.get (_d : DrogulusState) (public_key key_name : String) :
    RetrieveCall :=
  let target := construct_key public_key key_name
  { target := target }

/-- `Drogulus.whois` from `drogulus/node.py`:
`self.get(public_key, public_key)`. -/
def DrogulusState.whois (d : DrogulusState) (public_key : String) :
    RetrieveCall :=
  d.get public_key public_key

/-- `Drogulus.set` from `drogulus/node.py`: signs the item with the local
node's own key pair via `get_signed_item` and replicates it.  The Python
default arguments `duplicate=DUPLICATION_COUNT` and
`expires=EXPIRY_DURATION` are modelled as `Option` arguments where `none`
means the argument was omitted at the call site. -/
def DrogulusState.set (d : DrogulusState) (key_name : String)
    (value : PyVal) (duplicate expires : Option Nat) (now : Nat) :
    ReplicateCall :=
  let duplicate := duplicate.getD DUPLICATION_COUNT
  let expires := expires.getD EXPIRY_DURATION
  let item := get_signed_item key_name value d.public_key d.private_key
    expires now
  { duplicate := duplicate, key := item.key, value := item.value,
    timestamp := item.timestamp, expires := item.expires,
    created_with := item.created_with, public_key := item.public_key,
    name := item.name, signature := item.signature }

/-- The completion state of the future returned by `_node.join`: either
success or failure with some exception (the payloads are opaque to the
callback). -/
inductive JoinOutcome where
  | success : JoinOutcome
  | failure : String → JoinOutcome
deriving DecidableEq, Repr

/-- The `on_joined` done-callback that `Drogulus.join` from
`drogulus/node.py` attaches to the future: whatever the outcome, it calls
`node.set(whoami['public_key'], whoami)`.  The callback receives the
completed future as `result` and never inspects it. -/
def DrogulusState.on_joined (d : DrogulusState) (_result : JoinOutcome) :
    SetCall :=
  { key_name := dictLookup d.whoami "public_key"
    value := PyVal.dict d.whoami }


/-! Helper lemmas. -/

/-- Each 64-bit word yields exactly 16 hex characters. -/
theorem wordToHex_length (w : Nat) : (wordToHex w).length = 16 := by
  simp [wordToHex]

/-- Every SHA-512 hex digest has exactly 128 characters. -/
theorem sha512Hexdigest_length (msg : List Nat) :
    (sha512Hexdigest msg).length = 128 := by
  simp [sha512Hexdigest, String.length, wordToHex_length]

/-- Looking up the key just assigned finds the assigned value. -/
theorem dictLookup_dictSet_self (d : List (String × PyVal)) (k : String)
    (v : PyVal) : dictLookup (dictSet d k v) k = some v := by
  induction d with
  | nil => simp [dictSet, dictLookup]
  | cons hd tl ih =>
      by_cases h : hd.1 = k <;>
        simp [dictSet, dictLookup, h, ih]

/-- Assigning one key leaves lookups of any other key unchanged. -/
theorem dictLookup_dictSet_ne (d : List (String × PyVal)) (k k' : String)
    (v : PyVal) (h : k' ≠ k) :
    dictLookup (dictSet d k v) k' = dictLookup d k' := by
  induction d with
  | nil => simp [dictSet, dictLookup, Ne.symm h]
  | cons hd tl ih =>
      by_cases hk : hd.1 = k <;>
        simp [dictSet, dictLookup, hk, ih, Ne.symm h]

/-! Claim theorems. -/

/-- C1: for every non-empty (ASCII) public-key string `pk`,
`make_network_id pk` returns the SHA-512 hex digest of `pk`'s ASCII
encoding, a 128-hex-character string, and a `PeerNode` constructed from
`pk` has exactly that string as its `network_id` attribute. -/
theorem C1_network_id_is_sha512_hexdigest (pk : String) (hne : pk ≠ "")
    (_hascii : isAscii pk) :
    make_network_id pk = Except.ok (sha512Hexdigest (asciiEncode pk)) ∧
    (sha512Hexdigest (asciiEncode pk)).length = 128 ∧
    ∀ version uri last_seen, ∃ p : PeerNode,
      PeerNode.init pk version uri last_seen = Except.ok p ∧
      p.network_id = sha512Hexdigest (asciiEncode pk) := by
  refine ⟨?_, sha512Hexdigest_length _, ?_⟩
  · simp [make_network_id, hne]
  · intro version uri last_seen
    refine ⟨{ network_id := sha512Hexdigest (asciiEncode pk),
              public_key := pk, version := version, uri := uri,
              last_seen := last_seen, failed_RPCs := 0 }, ?_, rfl⟩
    simp [PeerNode.init, make_network_id, hne]

/-- Witness for C1 at the literal key and peer data of the test suite's
identity-derivation scenario. -/
theorem C1_network_id_is_sha512_hexdigest_witness :
    make_network_id "ABC" =
      Except.ok (sha512Hexdigest (asciiEncode "ABC")) ∧
    (sha512Hexdigest (asciiEncode "ABC")).length = 128 ∧
    ∃ p : PeerNode,
      PeerNode.init "ABC" "0.0.1" "netstring://192.168.0.1:9999" 123 =
        Except.ok p ∧
      p.network_id = sha512Hexdigest (asciiEncode "ABC") := by
  have h := C1_network_id_is_sha512_hexdigest "ABC" (by decide) (by decide)
  exact ⟨h.1, h.2.1, h.2.2 "0.0.1" "netstring://192.168.0.1:9999" 123⟩

/-- C2: two `PeerNode`s are equal exactly when their `network_id`s
match, and a `PeerNode` equals a bare string exactly when the string is
its `network_id`. -/
theorem C2_peer_equality_is_network_id_equality (p q : PeerNode)
    (s : String) :
    (PeerNode.eqPeer p q = true ↔ p.network_id = q.network_id) ∧
    (PeerNode.eqStr p s = true ↔ s = p.network_id) := by
  constructor
  · simp [PeerNode.eqPeer]
  · simp only [PeerNode.eqStr, beq_iff_eq]
    exact eq_comm

/-- C3: on the empty public-key string, `make_network_id` fails with the
`InvalidKey` error kind instead of returning an id. -/
theorem C3_empty_key_fails_invalid_key :
    make_network_id "" = Except.error DrogulusError.InvalidKey := by
  rfl

set_option maxRecDepth 4000 in
/-- C6: `dump` of a `PeerNode` holds exactly the three entries
`public_key`, `version` and `uri` — with the peer's attribute values —
and no `network_id`, `last_seen` or `failed_rpcs` entry. -/
theorem C6_dump_is_exactly_three_fields (p : PeerNode) :
    p.dump.length = 3 ∧
    p.dump.lookup "public_key" = some p.public_key ∧
    p.dump.lookup "version" = some p.version ∧
    p.dump.lookup "uri" = some p.uri ∧
    p.dump.lookup "network_id" = none ∧
    p.dump.lookup "last_seen" = none ∧
    p.dump.lookup "failed_rpcs" = none := by
  exact ⟨rfl, rfl, rfl, rfl, rfl, rfl, rfl⟩

/-- C7: the hash of a `PeerNode` is exactly the hash of its bare
`network_id` string, so in a hash-based container a peer and an id
string hash alike exactly when the ids match. -/
theorem C7_peer_hash_is_network_id_hash (p : PeerNode) :
    p.pyHash = pyStringHash p.network_id ∧
    (∀ q : PeerNode, p.network_id = q.network_id → p.pyHash = q.pyHash) := by
  refine ⟨rfl, ?_⟩
  intro q hq
  simp [PeerNode.pyHash, hq]

/-- Witness for C7 at the concrete peer of the test suite's scenario and
a second peer sharing its network id. -/
theorem C7_peer_hash_is_network_id_hash_witness :
    (PeerNode.mk "aa" "k1" "v" "u" 0 0).pyHash = pyStringHash "aa" ∧
    (∀ q : PeerNode, (PeerNode.mk "aa" "k1" "v" "u" 0 0).network_id =
      q.network_id →
      (PeerNode.mk "aa" "k1" "v" "u" 0 0).pyHash = q.pyHash) :=
  C7_peer_hash_is_network_id_hash (PeerNode.mk "aa" "k1" "v" "u" 0 0)

/-- C4: `Drogulus.set` stores exactly the item produced by
`get_signed_item` applied to the local node's own key pair — with
`timestamp = now`, `expires` the TTL added to the current time (0
meaning no expiry) and the signature issued by the node's private key —
replicates it to `duplicate` peers, and defaults `duplicate` to
`DUPLICATION_COUNT` (which is 6) and `expires` to `EXPIRY_DURATION`. -/
theorem C4_set_signs_with_own_keys_and_replicates (d : DrogulusState)
    (key_name : String) (value : PyVal) (dup ttl now : Nat) :
    d.set key_name value (some dup) (some ttl) now =
      { duplicate := dup,
        key := (get_signed_item key_name value d.public_key d.private_key
          ttl now).key,
        value := (get_signed_item key_name value d.public_key
          d.private_key ttl now).value,
        timestamp := (get_signed_item key_name value d.public_key
          d.private_key ttl now).timestamp,
        expires := (get_signed_item key_name value d.public_key
          d.private_key ttl now).expires,
        created_with := (get_signed_item key_name value d.public_key
          d.private_key ttl now).created_with,
        public_key := (get_signed_item key_name value d.public_key
          d.private_key ttl now).public_key,
        name := (get_signed_item key_name value d.public_key
          d.private_key ttl now).name,
        signature := (get_signed_item key_name value d.public_key
          d.private_key ttl now).signature } ∧
    (get_signed_item key_name value d.public_key d.private_key ttl
      now).timestamp = now ∧
    (get_signed_item key_name value d.public_key d.private_key ttl
      now).expires = (if ttl = 0 then 0 else now + ttl) ∧
    (get_signed_item key_name value d.public_key d.private_key ttl
      now).signature.signer = d.private_key ∧
    (get_signed_item key_name value d.public_key d.private_key ttl
      now).public_key = d.public_key ∧
    d.set key_name value none none now =
      d.set key_name value (some DUPLICATION_COUNT)
        (some EXPIRY_DURATION) now ∧
    DUPLICATION_COUNT = 6 := by
  exact ⟨rfl, rfl, rfl, rfl, rfl, rfl, rfl⟩

/-- C5: `Drogulus.get` retrieves at exactly the compound key
`construct_key(public_key, key_name)` — the SHA-512 hex digest of the
public key concatenated with the key name — which is also the key a
`set` of `key_name` by that author stores under. -/
theorem C5_get_retrieves_at_compound_key (d : DrogulusState)
    (public_key key_name : String) (value : PyVal)
    (dup ttl : Option Nat) (now : Nat) :
    d.get public_key key_name =
      { target := construct_key public_key key_name } ∧
    construct_key public_key key_name =
      sha512Hexdigest (asciiEncode (public_key ++ key_name)) ∧
    (d.get d.public_key key_name).target =
      (d.set key_name value dup ttl now).key := by
  exact ⟨rfl, rfl, rfl⟩

/-- The state `drogulusInit` yields on a non-empty public key, written
out explicitly so it can serve as an existential witness. -/
def initState (private_key public_key : String)
    (whoami : Option (List (String × PyVal))) : DrogulusState :=
  { private_key := private_key, public_key := public_key,
    network_id := sha512Hexdigest (asciiEncode public_key),
    whoami := dictSet (dictSet (match whoami with
        | some w => if w.isEmpty then [] else w
        | none => []) "public_key" (PyVal.str public_key))
      "version" (PyVal.str get_version) }

/-- On a non-empty public key, `drogulusInit` succeeds with exactly
`initState`. -/
theorem drogulusInit_ok (private_key public_key : String)
    (whoami : Option (List (String × PyVal))) (hne : public_key ≠ "") :
    drogulusInit private_key public_key whoami =
      Except.ok (initState private_key public_key whoami) := by
  simp [drogulusInit, make_network_id, hne, initState]

/-- C8: whatever the outcome the future returned by `Drogulus.join`
completes with — success or failure — the attached `on_joined` callback
issues `set(whoami['public_key'], whoami)`, publishing the whoami
dictionary under the node's own public key; the call does not depend on
the outcome. -/
theorem C8_join_callback_publishes_whoami_unconditionally
    (private_key public_key : String)
    (whoami : Option (List (String × PyVal))) (hne : public_key ≠ "") :
    ∃ d, drogulusInit private_key public_key whoami = Except.ok d ∧
      ∀ outcome, d.on_joined outcome =
        { key_name := some (PyVal.str public_key),
          value := PyVal.dict d.whoami } := by
  refine ⟨initState private_key public_key whoami,
    drogulusInit_ok private_key public_key whoami hne, ?_⟩
  intro outcome
  unfold DrogulusState.on_joined initState
  rw [dictLookup_dictSet_ne _ _ _ _ (by decide), dictLookup_dictSet_self]

/-- Witness for C8 at a concrete node whose caller-supplied whoami has
an unrelated entry, applied to both completion outcomes via the
universally quantified conclusion. -/
theorem C8_join_callback_publishes_whoami_unconditionally_witness :
    ∃ d, drogulusInit "priv" "ABC" (some [("nick", PyVal.str "al")]) =
        Except.ok d ∧
      ∀ outcome, d.on_joined outcome =
        { key_name := some (PyVal.str "ABC"),
          value := PyVal.dict d.whoami } :=
  C8_join_callback_publishes_whoami_unconditionally "priv" "ABC"
    (some [("nick", PyVal.str "al")]) (by decide)

/-- C9: after `Drogulus.__init__`, the whoami dictionary maps
`public_key` to the node's public key and `version` to the local
software version — overwriting caller-supplied values under those keys —
while every other key looks up exactly as in the caller's dictionary
(or in the empty dictionary when none was passed). -/
theorem C9_init_overwrites_whoami_identity (private_key public_key :
    String) (whoami : Option (List (String × PyVal)))
    (hne : public_key ≠ "") :
    ∃ d, drogulusInit private_key public_key whoami = Except.ok d ∧
      dictLookup d.whoami "public_key" = some (PyVal.str public_key) ∧
      dictLookup d.whoami "version" = some (PyVal.str get_version) ∧
      ∀ k, k ≠ "public_key" → k ≠ "version" →
        dictLookup d.whoami k = dictLookup (whoami.getD []) k := by
  refine ⟨initState private_key public_key whoami,
    drogulusInit_ok private_key public_key whoami hne, ?_, ?_, ?_⟩
  · unfold initState
    rw [dictLookup_dictSet_ne _ _ _ _ (by decide), dictLookup_dictSet_self]
  · unfold initState
    rw [dictLookup_dictSet_self]
  · intro k hk1 hk2
    unfold initState
    rw [dictLookup_dictSet_ne _ _ _ _ hk2, dictLookup_dictSet_ne _ _ _ _ hk1]
    cases whoami with
    | none => rfl
    | some w => cases w with
      | nil => rfl
      | cons a l => rfl

/-- Witness for C9 at a concrete caller dictionary that carries both an
unrelated entry and a `public_key` entry to be overwritten. -/
theorem C9_init_overwrites_whoami_identity_witness :
    ∃ d, drogulusInit "priv" "ABC"
        (some [("nick", PyVal.str "al"), ("public_key", PyVal.other 7)]) =
        Except.ok d ∧
      dictLookup d.whoami "public_key" = some (PyVal.str "ABC") ∧
      dictLookup d.whoami "version" = some (PyVal.str get_version) ∧
      ∀ k, k ≠ "public_key" → k ≠ "version" →
        dictLookup d.whoami k =
          dictLookup ((some [("nick", PyVal.str "al"),
            ("public_key", PyVal.other 7)] :
              Option (List (String × PyVal))).getD []) k :=
  C9_init_overwrites_whoami_identity "priv" "ABC"
    (some [("nick", PyVal.str "al"), ("public_key", PyVal.other 7)])
    (by decide)

/-- C10: `Drogulus.whois` is extensionally `Drogulus.get` applied to the
public key twice: it retrieves at the self-addressed compound key
`construct_key(public_key, public_key)`. -/
theorem C10_whois_is_get_at_self_key (d : DrogulusState)
    (public_key : String) :
    d.whois public_key = d.get public_key public_key ∧
    (d.whois public_key).target =
      construct_key public_key public_key := by
  exact ⟨rfl, rfl⟩

end Drogulus
